import Mathlib

/-!
A shallow embedding of `src/sql-mts-k.py`, a single scheduled job that polls
the Tankerkoenig fuel-price API and persists station, status and price rows
into an sqlite database.

Modelling conventions:
  - Python floats carried as opaque stored values (never computed with) are
    modelled as `Rat`; Python ints as `Int` (indices and counts as `Nat`).
  - A `cursor.execute` of an INSERT can raise an sqlite3 error (disk full,
    corruption); this environmental failure is modelled by a fault oracle
    `fault : Nat → Bool` saying whether the k-th INSERT of a cycle raises.
  - A raised Python exception is an `Except.error`; the fetch pipeline's
    normal return versus an uncaught exception is `CycleTermination`.
  - The HTTP transport is a pair of functions: the status code of the i-th
    attempt, and the parsed body of the i-th attempt (`none` models a body
    on which `response.json()` or `dacite.from_dict` raises).
-/

namespace SqlMtsK

/-- Log levels of the two stderr helpers `info` and `error_message`
(`error` additionally exits, handled at the call sites). -/
inductive LogLevel
  | info
  | error
deriving DecidableEq

/-- One stderr log line (color escapes for a tty are elided). -/
structure LogEntry where
  level : LogLevel
  text : String
deriving DecidableEq

/-- `info(message)`: an informational stderr line. -/
def info_line (message : String) : LogEntry :=
  ⟨LogLevel.info, message⟩

/-- `error_message(message)`: an error stderr line; does not exit. -/
def error_message_line (message : String) : LogEntry :=
  ⟨LogLevel.error, message⟩

/-- Python string interpolation of an `Optional[str]`: `None` prints as
the text `"None"`. -/
def py_str_of_opt : Option String → String
  | none => "None"
  | some s => s

/-- Dataclass `SqlStation` (field order as in the source). -/
structure SqlStation where
  id : String
  name : String
  brand : String
  street : String
  place : String
  lat : Rat
  lng : Rat
  dist : Rat
  houseNumber : String
  postCode : Int
deriving DecidableEq

/-- Dataclass `SqlStatus`. -/
structure SqlStatus where
  stationId : String
  isOpen : Bool
deriving DecidableEq

/-- Dataclass `SqlPrice`. -/
structure SqlPrice where
  stationId : String
  timestamp : Int
  price : Rat
deriving DecidableEq

/-- Dataclass `TankerkoenigStation` (one station snapshot of a response). -/
structure TankerkoenigStation where
  id : String
  name : String
  brand : String
  street : String
  place : String
  lat : Rat
  lng : Rat
  dist : Rat
  price : Option Rat
  isOpen : Bool
  houseNumber : String
  postCode : Int
deriving DecidableEq

/-- Dataclass `TankerkoenigListResponse` (the deserialized JSON body). -/
structure TankerkoenigListResponse where
  ok : Bool
  status : String
  message : Option String
  stations : Option (List TankerkoenigStation)
deriving DecidableEq

/-- Dataclass `SqlMtsKConfig` (retry and interval policy). -/
structure SqlMtsKConfig where
  tries : Int
  timeout : Int
  interval : Int
  database_path : String
deriving DecidableEq

/-- The three tables of the sqlite database, as lists of rows in insertion
order. -/
structure Database where
  stations : List SqlStation
  status : List SqlStatus
  prices : List SqlPrice
deriving DecidableEq

/-- The empty database (fresh file). -/
def emptyDatabase : Database :=
  ⟨[], [], []⟩

/-- `sqlite3_insert_dataclass` on the `stations` table, whose primary key is
`id`: a plain INSERT raises `IntegrityError` on a key conflict
(`Except.error`), INSERT OR IGNORE silently keeps the existing row. -/
def insert_station_row (rows : List SqlStation) (s : SqlStation)
    (or_ignore : Bool) : Except Unit (List SqlStation) :=
  if rows.any (fun r => r.id == s.id) then
    if or_ignore then Except.ok rows else Except.error ()
  else Except.ok (rows ++ [s])

/-- `sqlite3_insert_dataclass` on the `status` table (primary key
`stationId`). -/
def insert_status_row (rows : List SqlStatus) (s : SqlStatus)
    (or_ignore : Bool) : Except Unit (List SqlStatus) :=
  if rows.any (fun r => r.stationId == s.stationId) then
    if or_ignore then Except.ok rows else Except.error ()
  else Except.ok (rows ++ [s])

/-- `sqlite3_insert_dataclass` on the `prices` table (composite primary key
`(stationId, timestamp)`). -/
def insert_price_row (rows : List SqlPrice) (s : SqlPrice)
    (or_ignore : Bool) : Except Unit (List SqlPrice) :=
  if rows.any (fun r => r.stationId == s.stationId && r.timestamp == s.timestamp) then
    if or_ignore then Except.ok rows else Except.error ()
  else Except.ok (rows ++ [s])

/-- The `stations` table after an INSERT OR IGNORE of one row. -/
def station_table_after (rows : List SqlStation) (s : SqlStation) :
    List SqlStation :=
  if rows.any (fun r => r.id == s.id) then rows else rows ++ [s]

/-- The `status` table after an INSERT OR IGNORE of one row. -/
def status_table_after (rows : List SqlStatus) (s : SqlStatus) :
    List SqlStatus :=
  if rows.any (fun r => r.stationId == s.stationId) then rows else rows ++ [s]

/-- The `prices` table after an INSERT OR IGNORE of one row. -/
def price_table_after (rows : List SqlPrice) (s : SqlPrice) :
    List SqlPrice :=
  if rows.any (fun r => r.stationId == s.stationId && r.timestamp == s.timestamp)
  then rows else rows ++ [s]

/-- The `SqlStation` built from a snapshot at the top of the loop body of
`insert_into_database`. -/
def sql_station_of (station : TankerkoenigStation) : SqlStation :=
  ⟨station.id, station.name, station.brand, station.street, station.place,
   station.lat, station.lng, station.dist, station.houseNumber, station.postCode⟩

/-- The `SqlStatus` built from a snapshot. -/
def sql_status_of (station : TankerkoenigStation) : SqlStatus :=
  ⟨station.id, station.isOpen⟩

/-- The per-station loop of `insert_into_database`: snapshots with a null
price are skipped before any insert; otherwise three INSERT OR IGNORE
statements run on the cursor.  `k` counts the INSERT statements executed so
far in this cycle (the fault oracle's index); `Except.error` carries the
uncommitted view at the point the exception was raised. -/
def insert_stations (fault : Nat → Bool) (timestamp : Int) :
    List TankerkoenigStation → Database → Nat → Except Database (Database × Nat)
  | [], db, k => Except.ok (db, k)
  | station :: rest, db, k =>
    match station.price with
    | none => insert_stations fault timestamp rest db k
    | some p =>
      if fault k then Except.error db else
      match insert_station_row db.stations (sql_station_of station) true with
      | Except.error _ => Except.error db
      | Except.ok srows =>
        let db1 : Database := { db with stations := srows }
        if fault (k + 1) then Except.error db1 else
        match insert_status_row db1.status (sql_status_of station) true with
        | Except.error _ => Except.error db1
        | Except.ok trows =>
          let db2 : Database := { db1 with status := trows }
          if fault (k + 2) then Except.error db2 else
          match insert_price_row db2.prices ⟨station.id, timestamp, p⟩ true with
          | Except.error _ => Except.error db2
          | Except.ok prows =>
            insert_stations fault timestamp rest { db2 with prices := prows } (k + 3)

/-- `TankerkoenigListResponse.insert_into_database`: asserts that the station
list is present (an absent list raises `AssertionError`), resolves the
timestamp argument once before the loop (`None` means the rounded current
time, passed here as `now`), then runs the per-station loop.
`Except.error` is a raised exception carrying the uncommitted view. -/
def TankerkoenigListResponse.insert_into_database
    (self : TankerkoenigListResponse) (fault : Nat → Bool)
    (timestamp : Option Int) (now : Int) (db : Database) :
    Except Database Database :=
  match self.stations with
  | none => Except.error db
  | some stations =>
    let ts := timestamp.getD now
    match insert_stations fault ts stations db 0 with
    | Except.error dbp => Except.error dbp
    | Except.ok dbn => Except.ok dbn.1

/-- The sqlite connection: the committed store, and the current view of the
implicit transaction opened by the first INSERT.  `con.commit()` publishes
the view; an uncommitted transaction is rolled back when the process dies. -/
structure Connection where
  committed : Database
  view : Database
deriving DecidableEq

/-- The HTTP transport: status code and parsed body of the i-th
`requests.get` of a cycle (`none` body = deserialization raises). -/
structure Transport where
  status : Nat → Nat
  body : Nat → Option TankerkoenigListResponse

/-- Outcome of the retry `for` loop of `fetch_current_prices`: number of
HTTP attempts made, total seconds slept, the log lines emitted, and the
index of the successful attempt (`none` = the `for`-`else` exhaustion arm
ran). -/
structure RetryResult where
  attempts : Nat
  slept : Int
  log : List LogEntry
  found : Option Nat
deriving DecidableEq

/-- The retry loop over the remaining attempt indices: on a 200 status the
loop breaks; otherwise it logs, sleeps `timeout` seconds and retries; an
empty index list runs the `for`-`else` arm. -/
def retry_go (t : Transport) (tries timeout : Int) : List Nat → RetryResult
  | [] =>
    ⟨0, 0, [error_message_line ("Unable to fetch after " ++ toString tries ++ " tries")], none⟩
  | i :: rest =>
    if t.status i == 200 then ⟨1, 0, [], some i⟩
    else
      let r := retry_go t tries timeout rest
      ⟨r.attempts + 1, timeout + r.slept,
       error_message_line ("Retrying " ++ toString (i + 1) ++ "/" ++ toString tries) :: r.log,
       r.found⟩

/-- The retry phase of `fetch_current_prices`: `for i in range(0, tries)`. -/
def retry_phase (t : Transport) (cfg : SqlMtsKConfig) : RetryResult :=
  retry_go t cfg.tries cfg.timeout (List.range cfg.tries.toNat)

/-- Whether one invocation of `fetch_current_prices` returned normally or
raised an uncaught exception. -/
inductive CycleTermination
  | returned
  | raised
deriving DecidableEq

/-- Observable outcome of one invocation of `fetch_current_prices`. -/
structure CycleResult where
  attempts : Nat
  slept : Int
  log : List LogEntry
  con : Connection
  term : CycleTermination
deriving DecidableEq

/-- The post-parse tail of `fetch_current_prices` (source lines 231-237):
log the message when `ok` is false, insert into the database on the
connection's cursor, and commit only if no exception was raised. -/
def process_response (data : TankerkoenigListResponse) (fault : Nat → Bool)
    (now : Int) (con : Connection) :
    List LogEntry × Connection × CycleTermination :=
  let wlog : List LogEntry :=
    if data.ok then [] else [error_message_line (py_str_of_opt data.message)]
  match data.insert_into_database fault none now con.view with
  | Except.error dbp => (wlog, ⟨con.committed, dbp⟩, CycleTermination.raised)
  | Except.ok dbn =>
    (wlog ++ [info_line "Successfully fetched the current prices"],
     ⟨dbn, dbn⟩, CycleTermination.returned)

/-- `fetch_current_prices`: retry the HTTP GET, return on exhaustion,
otherwise deserialize the body (raising on a malformed one) and process it. -/
def fetch_current_prices (t : Transport) (cfg : SqlMtsKConfig) (now : Int)
    (con : Connection) (fault : Nat → Bool) : CycleResult :=
  let r := retry_phase t cfg
  match r.found with
  | none => ⟨r.attempts, r.slept, r.log, con, CycleTermination.returned⟩
  | some i =>
    match t.body i with
    | none => ⟨r.attempts, r.slept, r.log, con, CycleTermination.raised⟩
    | some data =>
      let p := process_response data fault now con
      ⟨r.attempts, r.slept, r.log ++ p.1, p.2.1, p.2.2⟩

/-- Whether the process survives one pass of the main loop. -/
inductive ProcessOutcome
  | continues
  | terminated
deriving DecidableEq

/-- One pass of the main `while True` loop: sleep until the next scheduled
run, then `schedule.run_pending()` invokes `fetch_current_prices` with no
surrounding exception handler, so a raised exception propagates and
terminates the process. -/
def scheduler_iteration (t : Transport) (cfg : SqlMtsKConfig) (now : Int)
    (con : Connection) (fault : Nat → Bool) : ProcessOutcome × Connection :=
  let r := fetch_current_prices t cfg now con fault
  match r.term with
  | CycleTermination.raised => (ProcessOutcome.terminated, r.con)
  | CycleTermination.returned => (ProcessOutcome.continues, r.con)

/-- The interval policy check at startup: `interval < 5*60 + tries*timeout`
raises, the surrounding `except` calls `error(...)` which exits with
status 1; otherwise startup proceeds. -/
def startup_check (c : SqlMtsKConfig) : Except Nat Unit :=
  if c.interval < 5 * 60 + c.tries * c.timeout then Except.error 1 else Except.ok ()

/-- The `primary_key` argument of `sqlite3_create_table_for_dataclass`:
`None | str | tuple[str, ...]`. -/
inductive PrimaryKeySpec
  | null
  | str (s : String)
  | tup (cols : List String)

/-- A structured CREATE TABLE statement: table name, plain column names,
the index of the column whose spec got an inline ` PRIMARY KEY` suffix
appended (if any), the column list of a table-level `PRIMARY KEY (...)`
constraint appended after the columns (if any), and the IF NOT EXISTS
flag. -/
structure CreateTableStmt where
  table_name : String
  columns : List String
  inline_pk_index : Option Nat
  constraint_pk : Option (List String)
  if_not_exists : Bool
deriving DecidableEq

/-- `sqlite3_create_table_for_dataclass`.  Note the source's
`if at := field_names.index(primary_key) < 0:` binds `at` to the COMPARISON
result (always `False` when `index` succeeds), so `field_names[at]` indexes
with `int(False) = 0`: the inline PRIMARY KEY lands on field 0, whatever
field was named.  A name absent from the fields makes `list.index` raise
`ValueError` (`Except.error`). -/
def sqlite3_create_table_for_dataclass (table_name : String)
    (field_names : List String) (primary_key : PrimaryKeySpec)
    (if_not_exists : Bool) : Except Unit CreateTableStmt :=
  match primary_key with
  | PrimaryKeySpec.null =>
    Except.ok ⟨table_name, field_names, none, none, if_not_exists⟩
  | PrimaryKeySpec.str s =>
    match field_names.indexOf? s with
    | none => Except.error ()
    | some idx =>
      let a : Bool := decide (idx < 0)
      if a then Except.error ()
      else Except.ok ⟨table_name, field_names, some a.toNat, none, if_not_exists⟩
  | PrimaryKeySpec.tup pk =>
    Except.ok ⟨table_name, field_names, none, some pk, if_not_exists⟩

/-- The primary-key columns a CREATE TABLE statement denotes in sqlite: the
column carrying the inline `PRIMARY KEY`, plus the columns of a table-level
`PRIMARY KEY (...)` constraint. -/
def stmt_primary_key (s : CreateTableStmt) : List String :=
  (match s.inline_pk_index with
   | none => []
   | some i => [s.columns.getD i ""]) ++
  (s.constraint_pk.getD [])

/-- Field names of dataclass `SqlStation`, in declaration order. -/
def sql_station_fields : List String :=
  ["id", "name", "brand", "street", "place", "lat", "lng", "dist",
   "houseNumber", "postCode"]

/-- Field names of dataclass `SqlPrice`. -/
def sql_price_fields : List String :=
  ["stationId", "timestamp", "price"]

/-- Field names of dataclass `SqlStatus`. -/
def sql_status_fields : List String :=
  ["stationId", "isOpen"]

/-- The startup call creating the `stations` table. -/
def create_stations_table : Except Unit CreateTableStmt :=
  sqlite3_create_table_for_dataclass "stations" sql_station_fields
    (PrimaryKeySpec.str "id") true

/-- The startup call creating the `prices` table. -/
def create_prices_table : Except Unit CreateTableStmt :=
  sqlite3_create_table_for_dataclass "prices" sql_price_fields
    (PrimaryKeySpec.tup ["stationId", "timestamp"]) true

/-- The startup call creating the `status` table.  In Python
`('stationId')` is the plain string, not a one-element tuple, so this call
takes the string branch. -/
def create_status_table : Except Unit CreateTableStmt :=
  sqlite3_create_table_for_dataclass "status" sql_status_fields
    (PrimaryKeySpec.str "stationId") true

/-- Executing a CREATE TABLE statement against the set of existing table
names: with IF NOT EXISTS an existing table is left untouched, without it
sqlite raises `OperationalError`. -/
def apply_create (schema : List String) (e : Except Unit CreateTableStmt) :
    Except Unit (List String) :=
  match e with
  | Except.error _ => Except.error ()
  | Except.ok stmt =>
    if schema.contains stmt.table_name then
      if stmt.if_not_exists then Except.ok schema else Except.error ()
    else Except.ok (schema ++ [stmt.table_name])

/-- The schema-creation sequence run on every startup, in source order:
stations, prices, status. -/
def ensure_schema (schema : List String) : Except Unit (List String) :=
  match apply_create schema create_stations_table with
  | Except.error _ => Except.error ()
  | Except.ok s1 =>
    match apply_create s1 create_prices_table with
    | Except.error _ => Except.error ()
    | Except.ok s2 => apply_create s2 create_status_table

/-- Whether a CREATE TABLE call succeeded. -/
def created_ok : Except Unit CreateTableStmt → Bool
  | Except.ok _ => true
  | Except.error _ => false

/-- Primary-key columns of a successful CREATE TABLE call. -/
def created_primary_key : Except Unit CreateTableStmt → List String
  | Except.ok s => stmt_primary_key s
  | Except.error _ => []

/-- IF NOT EXISTS flag of a successful CREATE TABLE call. -/
def created_if_not_exists : Except Unit CreateTableStmt → Bool
  | Except.ok s => s.if_not_exists
  | Except.error _ => false

/-- The database reached by a possibly-raising insert run (on a raise, the
uncommitted view at the raise point). -/
def except_db : Except Database Database → Database
  | Except.ok d => d
  | Except.error d => d

/-- The database reached by the per-station loop, whether or not it raised. -/
def stations_result_db : Except Database (Database × Nat) → Database
  | Except.ok p => p.1
  | Except.error d => d

/-- All rows of the three tables keyed by the given station identifier. -/
def Database.rowsForStation (db : Database) (sid : String) :
    List SqlStation × List SqlStatus × List SqlPrice :=
  (db.stations.filter (fun r => r.id == sid),
   db.status.filter (fun r => r.stationId == sid),
   db.prices.filter (fun r => r.stationId == sid))

/-- The fault oracle of a healthy sqlite environment: no INSERT raises. -/
def noFault : Nat → Bool := fun _ => false

/-- A config with the default retry policy and a valid interval. -/
def cfg3 : SqlMtsKConfig := ⟨3, 10, 331, "/etc/sql_mts_k.db"⟩

/-- A fresh connection on an empty database. -/
def con0 : Connection := ⟨emptyDatabase, emptyDatabase⟩

/-- A transport whose every request comes back with status 500. -/
def t_allfail : Transport := ⟨fun _ => 500, fun _ => none⟩

/-- A transport that answers 200 with a body on which deserialization
raises. -/
def t_badbody : Transport := ⟨fun _ => 200, fun _ => none⟩

/-- A response with `ok = false` and an absent station list. -/
def resp_null_stations : TankerkoenigListResponse :=
  ⟨false, "error", some "apikey invalid", none⟩

/-- A transport answering 200 with `resp_null_stations`. -/
def t_null_stations : Transport :=
  ⟨fun _ => 200, fun _ => some resp_null_stations⟩

/-- A snapshot with a concrete price. -/
def stA : TankerkoenigStation :=
  ⟨"A1", "Shell", "Shell", "Main", "Town", 1, 2, 3, some 2,
   true, "1", 12345⟩

/-- A snapshot with a null price and its own identifier. -/
def stN : TankerkoenigStation :=
  { stA with id := "N1", price := none }

/-- A normal response carrying `stN` (null price) and `stA`. -/
def resp_mixed : TankerkoenigListResponse :=
  ⟨true, "ok", none, some [stN, stA]⟩

/-- A transport answering 200 with `resp_mixed`. -/
def t_mixed : Transport :=
  ⟨fun _ => 200, fun _ => some resp_mixed⟩

/-- The station row `stA` normalizes to. -/
def sqlA : SqlStation :=
  ⟨"A1", "Shell", "Shell", "Main", "Town", 1, 2, 3, "1", 12345⟩

/-- The same identifier as `sqlA` with different other field values. -/
def sqlA2 : SqlStation := { sqlA with name := "Esso" }

/-- Sequencing two station inserts on the cursor, as two consecutive fetch
cycles sighting the same identifier do. -/
def insert_station_twice (rows : List SqlStation) (s1 s2 : SqlStation) :
    Except Unit (List SqlStation) :=
  match insert_station_row rows s1 true with
  | Except.error e => Except.error e
  | Except.ok rows1 => insert_station_row rows1 s2 true

/-- C4: startup interval validation: with `tries = 3` and `timeout = 10` an
interval of 300 seconds exits with status 1 (since 300 < 300 + 30) while
331 passes, and in general startup fails with a non-zero exit exactly when
`interval < 5*60 + tries*timeout`. -/
theorem interval_validation_exact :
    startup_check ⟨3, 10, 300, "/etc/sql_mts_k.db"⟩ = Except.error 1 ∧
    startup_check ⟨3, 10, 331, "/etc/sql_mts_k.db"⟩ = Except.ok () ∧
    ∀ c : SqlMtsKConfig,
      (∃ code, startup_check c = Except.error code ∧ code ≠ 0) ↔
        c.interval < 5 * 60 + c.tries * c.timeout := by
  refine ⟨rfl, rfl, fun c => ?_⟩
  constructor
  · rintro ⟨code, hc, hne⟩
    unfold startup_check at hc
    split at hc
    · assumption
    · exact absurd hc (by simp)
  · intro h
    refine ⟨1, ?_, one_ne_zero⟩
    unfold startup_check
    rw [if_pos h]

/-- C5: schema creation produces the `stations` table keyed on `id`, the
`status` table keyed on `stationId`, the `prices` table keyed on the
composite `(stationId, timestamp)`, all with IF NOT EXISTS, and running the
creation sequence a second time on the resulting schema is a no-op rather
than an error (idempotent DDL). -/
theorem schema_primary_keys_and_idempotent :
    created_ok create_stations_table = true ∧
    created_primary_key create_stations_table = ["id"] ∧
    created_ok create_status_table = true ∧
    created_primary_key create_status_table = ["stationId"] ∧
    created_ok create_prices_table = true ∧
    created_primary_key create_prices_table = ["stationId", "timestamp"] ∧
    created_if_not_exists create_stations_table = true ∧
    created_if_not_exists create_prices_table = true ∧
    created_if_not_exists create_status_table = true ∧
    ensure_schema [] = Except.ok ["stations", "prices", "status"] ∧
    ensure_schema ["stations", "prices", "status"] =
      Except.ok ["stations", "prices", "status"] := by
  exact ⟨rfl, rfl, rfl, rfl, rfl, rfl, rfl, rfl, rfl, rfl, rfl⟩

/-- When every attempt in the index list fails, the retry loop makes one
HTTP request per index, sleeps `timeout` seconds after every failed attempt
(the last included), and falls through to the `for`-`else` arm. -/
theorem retry_go_all_fail (t : Transport) (tries timeout : Int) (l : List Nat)
    (h : ∀ i ∈ l, t.status i ≠ 200) :
    (retry_go t tries timeout l).attempts = l.length ∧
    (retry_go t tries timeout l).slept = (l.length : Int) * timeout ∧
    (retry_go t tries timeout l).found = none := by
  induction l with
  | nil => simp [retry_go]
  | cons i rest ih =>
    have hi : (t.status i == 200) = false := by
      simp [h i (List.mem_cons_self i rest)]
    obtain ⟨h1, h2, h3⟩ := ih fun j hj => h j (List.mem_cons_of_mem i hj)
    refine ⟨?_, ?_, ?_⟩
    · simp [retry_go, hi, h1]
    · simp only [retry_go, hi, Bool.false_eq_true, if_false, h2,
        List.length_cons]
      push_cast
      ring
    · simp [retry_go, hi, h3]

/-- C3: with 3 configured attempts and a transport failing every request,
one invocation of the fetch pipeline makes exactly 3 HTTP attempts, leaves
the connection (committed store and uncommitted view) untouched, and
returns normally, abandoning the cycle. -/
theorem retry_exhaustion_abandons_cycle (t : Transport) (cfg : SqlMtsKConfig)
    (now : Int) (con : Connection) (fault : Nat → Bool)
    (htries : cfg.tries = 3) (hfail : ∀ i, t.status i ≠ 200) :
    (fetch_current_prices t cfg now con fault).attempts = 3 ∧
    (fetch_current_prices t cfg now con fault).con = con ∧
    (fetch_current_prices t cfg now con fault).term = CycleTermination.returned := by
  obtain ⟨h1, h2, h3⟩ := retry_go_all_fail t cfg.tries cfg.timeout
    (List.range cfg.tries.toNat) (fun i _ => hfail i)
  have hfound : (retry_phase t cfg).found = none := h3
  have hatt : (retry_phase t cfg).attempts = 3 := by
    rw [retry_phase] at *
    rw [h1, List.length_range, htries]
    rfl
  refine ⟨?_, ?_, ?_⟩ <;> simp [fetch_current_prices, hfound, hatt]

/-- C3 witness: the concrete always-500 transport with the default
three-attempt policy. -/
theorem retry_exhaustion_abandons_cycle_witness :
    cfg3.tries = 3 ∧ (∀ i, t_allfail.status i ≠ 200) ∧
    ((fetch_current_prices t_allfail cfg3 1000 con0 noFault).attempts = 3 ∧
     (fetch_current_prices t_allfail cfg3 1000 con0 noFault).con = con0 ∧
     (fetch_current_prices t_allfail cfg3 1000 con0 noFault).term =
       CycleTermination.returned) :=
  ⟨rfl, fun i => by simp [t_allfail],
   retry_exhaustion_abandons_cycle t_allfail cfg3 1000 con0 noFault rfl
     (fun i => by simp [t_allfail])⟩

/-- C10: the retry delay is slept after every failed attempt, the final one
included: a run whose every attempt fails sleeps `tries * timeout` seconds
in total before reporting exhaustion, not `(tries - 1) * timeout`. -/
theorem retry_sleeps_after_every_attempt (t : Transport) (cfg : SqlMtsKConfig)
    (now : Int) (con : Connection) (fault : Nat → Bool)
    (h0 : 0 ≤ cfg.tries) (hfail : ∀ i, t.status i ≠ 200) :
    (fetch_current_prices t cfg now con fault).slept =
      cfg.tries * cfg.timeout := by
  obtain ⟨h1, h2, h3⟩ := retry_go_all_fail t cfg.tries cfg.timeout
    (List.range cfg.tries.toNat) (fun i _ => hfail i)
  have hfound : (retry_phase t cfg).found = none := h3
  have hslept : (retry_phase t cfg).slept = cfg.tries * cfg.timeout := by
    rw [retry_phase] at *
    rw [h2, List.length_range, Int.toNat_of_nonneg h0]
  simp [fetch_current_prices, hfound, hslept]

/-- C10 witness: three failing attempts with a 10-second delay sleep 30
seconds in total. -/
theorem retry_sleeps_after_every_attempt_witness :
    (0 : Int) ≤ cfg3.tries ∧ (∀ i, t_allfail.status i ≠ 200) ∧
    (fetch_current_prices t_allfail cfg3 1000 con0 noFault).slept =
      cfg3.tries * cfg3.timeout :=
  ⟨by decide, fun i => by simp [t_allfail],
   retry_sleeps_after_every_attempt t_allfail cfg3 1000 con0 noFault
     (by decide) (fun i => by simp [t_allfail])⟩

/-- With `or_ignore` set, a station insert never raises: it keeps the table
on a key conflict and appends otherwise. -/
theorem insert_station_row_true (rows : List SqlStation) (s : SqlStation) :
    insert_station_row rows s true = Except.ok (station_table_after rows s) := by
  unfold insert_station_row station_table_after
  split <;> rfl

/-- `insert_status_row` with `or_ignore` set never raises. -/
theorem insert_status_row_true (rows : List SqlStatus) (s : SqlStatus) :
    insert_status_row rows s true = Except.ok (status_table_after rows s) := by
  unfold insert_status_row status_table_after
  split <;> rfl

/-- `insert_price_row` with `or_ignore` set never raises. -/
theorem insert_price_row_true (rows : List SqlPrice) (s : SqlPrice) :
    insert_price_row rows s true = Except.ok (price_table_after rows s) := by
  unfold insert_price_row price_table_after
  split <;> rfl

/-- A station insert for a different identifier does not change the rows
filtered by `sid`. -/
theorem filter_station_insert_ne (rows : List SqlStation) (s : SqlStation)
    (sid : String) (hne : s.id ≠ sid) :
    (station_table_after rows s).filter (fun r => r.id == sid) =
      rows.filter (fun r => r.id == sid) := by
  unfold station_table_after
  split
  · rfl
  · simp [List.filter_append, hne]

/-- A status insert for a different identifier does not change the rows
filtered by `sid`. -/
theorem filter_status_insert_ne (rows : List SqlStatus) (s : SqlStatus)
    (sid : String) (hne : s.stationId ≠ sid) :
    (status_table_after rows s).filter (fun r => r.stationId == sid) =
      rows.filter (fun r => r.stationId == sid) := by
  unfold status_table_after
  split
  · rfl
  · simp [List.filter_append, hne]

/-- A price insert for a different identifier does not change the rows
filtered by `sid`. -/
theorem filter_price_insert_ne (rows : List SqlPrice) (s : SqlPrice)
    (sid : String) (hne : s.stationId ≠ sid) :
    (price_table_after rows s).filter (fun r => r.stationId == sid) =
      rows.filter (fun r => r.stationId == sid) := by
  unfold price_table_after
  split
  · rfl
  · simp [List.filter_append, hne]

/-- Every row present after a price insert was present before or is the
inserted row. -/
theorem mem_price_insert (rows : List SqlPrice) (s p : SqlPrice)
    (hp : p ∈ price_table_after rows s) : p ∈ rows ∨ p = s := by
  revert hp
  unfold price_table_after
  split
  · exact fun hp => Or.inl hp
  · intro hp
    rcases List.mem_append.mp hp with h | h
    · exact Or.inl h
    · right
      simpa using h

/-- Unfolding `insert_stations` on a snapshot with a null price: the
snapshot is skipped without executing any INSERT. -/
theorem insert_stations_cons_none (fault : Nat → Bool) (ts : Int)
    (station : TankerkoenigStation) (rest : List TankerkoenigStation)
    (db : Database) (k : Nat) (hp : station.price = none) :
    insert_stations fault ts (station :: rest) db k =
      insert_stations fault ts rest db k := by
  conv_lhs => unfold insert_stations
  simp only [hp]

/-- Unfolding `insert_stations` on a snapshot with a price: three INSERT OR
IGNOREs run, each preceded by its fault check, and the loop continues on
the updated view. -/
theorem insert_stations_cons_some (fault : Nat → Bool) (ts : Int)
    (station : TankerkoenigStation) (rest : List TankerkoenigStation)
    (db : Database) (k : Nat) (p : Rat) (hp : station.price = some p) :
    insert_stations fault ts (station :: rest) db k =
      (if fault k then Except.error db else
       if fault (k + 1) then Except.error
         ⟨station_table_after db.stations (sql_station_of station),
          db.status, db.prices⟩ else
       if fault (k + 2) then Except.error
         ⟨station_table_after db.stations (sql_station_of station),
          status_table_after db.status (sql_status_of station), db.prices⟩ else
       insert_stations fault ts rest
         ⟨station_table_after db.stations (sql_station_of station),
          status_table_after db.status (sql_status_of station),
          price_table_after db.prices ⟨station.id, ts, p⟩⟩ (k + 3)) := by
  conv_lhs => unfold insert_stations
  simp only [hp, insert_station_row_true, insert_status_row_true,
    insert_price_row_true]

/-- The per-station loop leaves the rows of a station identifier untouched
when every snapshot carrying that identifier has a null price — whether the
loop completes or raises at any fault point. -/
theorem insert_stations_preserves_skipped (fault : Nat → Bool) (ts : Int)
    (sid : String) :
    ∀ l : List TankerkoenigStation, (∀ u ∈ l, u.id = sid → u.price = none) →
    ∀ (db : Database) (k : Nat),
      Database.rowsForStation
          (stations_result_db (insert_stations fault ts l db k)) sid =
        Database.rowsForStation db sid := by
  intro l
  induction l with
  | nil => intro _ db k; rfl
  | cons station rest ih =>
    intro hnull db k
    have hrest : ∀ u ∈ rest, u.id = sid → u.price = none :=
      fun u hu => hnull u (List.mem_cons_of_mem _ hu)
    cases hp : station.price with
    | none =>
      rw [insert_stations_cons_none fault ts station rest db k hp]
      exact ih hrest db k
    | some p =>
      have hne : station.id ≠ sid := by
        intro he
        have h2 := hnull station (List.mem_cons_self _ _) he
        rw [hp] at h2
        cases h2
      rw [insert_stations_cons_some fault ts station rest db k p hp]
      split
      · rfl
      split
      · simp only [stations_result_db, Database.rowsForStation]
        rw [filter_station_insert_ne db.stations (sql_station_of station) sid hne]
      split
      · simp only [stations_result_db, Database.rowsForStation]
        rw [filter_station_insert_ne db.stations (sql_station_of station) sid hne,
          filter_status_insert_ne db.status (sql_status_of station) sid hne]
      · rw [ih hrest _ (k + 3)]
        simp only [Database.rowsForStation]
        rw [filter_station_insert_ne db.stations (sql_station_of station) sid hne,
          filter_status_insert_ne db.status (sql_status_of station) sid hne,
          filter_price_insert_ne db.prices ⟨station.id, ts, p⟩ sid hne]

/-- C2: a station snapshot whose price field is null is skipped entirely:
processing the batch inserts zero rows carrying its identifier into any of
the stations, status and prices tables (its Station reference row
included), provided no other snapshot of the batch reuses the identifier
with a price. -/
theorem skip_on_null_price (resp : TankerkoenigListResponse)
    (l : List TankerkoenigStation) (fault : Nat → Bool) (tsArg : Option Int)
    (now : Int) (db : Database) (st : TankerkoenigStation)
    (hs : resp.stations = some l) (_hmem : st ∈ l) (_hpnull : st.price = none)
    (huniq : ∀ u ∈ l, u.id = st.id → u.price = none) :
    Database.rowsForStation
        (except_db (resp.insert_into_database fault tsArg now db)) st.id =
      Database.rowsForStation db st.id := by
  unfold TankerkoenigListResponse.insert_into_database
  simp only [hs]
  have h := insert_stations_preserves_skipped fault (tsArg.getD now) st.id l
    huniq db 0
  cases hi : insert_stations fault (tsArg.getD now) l db 0 with
  | error dbp =>
    rw [hi] at h
    exact h
  | ok dbn =>
    rw [hi] at h
    exact h

/-- C2 witness: a batch with one null-price snapshot and one priced
snapshot of a different identifier leaves the null-price station's rows
untouched. -/
theorem skip_on_null_price_witness :
    resp_mixed.stations = some [stN, stA] ∧ stN ∈ [stN, stA] ∧
    stN.price = none ∧
    (∀ u ∈ [stN, stA], u.id = stN.id → u.price = none) ∧
    Database.rowsForStation
        (except_db (resp_mixed.insert_into_database noFault none 1000
          emptyDatabase)) stN.id =
      Database.rowsForStation emptyDatabase stN.id :=
  ⟨rfl, List.mem_cons_self _ _, rfl, by decide,
   skip_on_null_price resp_mixed [stN, stA] noFault none 1000 emptyDatabase
     stN rfl (List.mem_cons_self _ _) rfl (by decide)⟩

/-- Every price row reached by the per-station loop, whether it completes
or raises, is an old row or carries the loop's single timestamp. -/
theorem insert_stations_prices_timestamped (fault : Nat → Bool) (ts : Int) :
    ∀ l : List TankerkoenigStation, ∀ (db : Database) (k : Nat) (p : SqlPrice),
      p ∈ (stations_result_db (insert_stations fault ts l db k)).prices →
      p ∈ db.prices ∨ p.timestamp = ts := by
  intro l
  induction l with
  | nil => intro db k p hp; exact Or.inl hp
  | cons station rest ih =>
    intro db k p hp
    cases hps : station.price with
    | none =>
      rw [insert_stations_cons_none fault ts station rest db k hps] at hp
      exact ih db k p hp
    | some pr =>
      rw [insert_stations_cons_some fault ts station rest db k pr hps] at hp
      revert hp
      split
      · exact fun hp => Or.inl hp
      split
      · exact fun hp => Or.inl hp
      split
      · exact fun hp => Or.inl hp
      · intro hp
        rcases ih _ (k + 3) p hp with h | h
        · rcases mem_price_insert db.prices ⟨station.id, ts, pr⟩ p h with h2 | h2
          · exact Or.inl h2
          · right
            rw [h2]
        · exact Or.inr h

/-- C9: the timestamp is resolved exactly once before the per-station loop,
so every price row inserted during one `insert_into_database` call carries
that one timestamp (the explicit argument, or the cycle's current time when
the argument is absent). -/
theorem single_timestamp_per_cycle (resp : TankerkoenigListResponse)
    (fault : Nat → Bool) (tsArg : Option Int) (now : Int) (db : Database)
    (p : SqlPrice)
    (hp : p ∈ (except_db (resp.insert_into_database fault tsArg now db)).prices) :
    p ∈ db.prices ∨ p.timestamp = tsArg.getD now := by
  unfold TankerkoenigListResponse.insert_into_database at hp
  cases hs : resp.stations with
  | none =>
    rw [hs] at hp
    exact Or.inl hp
  | some l =>
    simp only [hs] at hp
    have h := insert_stations_prices_timestamped fault (tsArg.getD now) l db 0 p
    cases hi : insert_stations fault (tsArg.getD now) l db 0 with
    | error dbp =>
      rw [hi] at hp h
      exact h hp
    | ok dbn =>
      rw [hi] at hp h
      exact h hp

/-- C9 witness: the single-station batch inserted with the cycle timestamp
1000 yields a price row whose timestamp is 1000. -/
theorem single_timestamp_per_cycle_witness :
    (⟨"A1", 1000, 2⟩ : SqlPrice) ∈
      (except_db ((⟨true, "ok", none, some [stA]⟩ :
        TankerkoenigListResponse).insert_into_database noFault none 1000
          emptyDatabase)).prices ∧
    ((⟨"A1", 1000, 2⟩ : SqlPrice) ∈ emptyDatabase.prices ∨
     (⟨"A1", 1000, 2⟩ : SqlPrice).timestamp = (none : Option Int).getD 1000) :=
  ⟨by decide,
   single_timestamp_per_cycle ⟨true, "ok", none, some [stA]⟩ noFault none 1000
     emptyDatabase ⟨"A1", 1000, 2⟩ (by decide)⟩

/-- C1: one fetch cycle is atomic: the committed store after the cycle is
either exactly what it was before (in particular whenever any insert raised
partway through the batch), or the cycle returned normally and the store is
exactly the result of processing every station of the response in one
transaction, committed only after the whole batch. -/
theorem atomic_cycle_commit (t : Transport) (cfg : SqlMtsKConfig) (now : Int)
    (con : Connection) (fault : Nat → Bool) :
    (fetch_current_prices t cfg now con fault).con.committed = con.committed ∨
    ((fetch_current_prices t cfg now con fault).term =
        CycleTermination.returned ∧
     ∃ i data dbn, (retry_phase t cfg).found = some i ∧
       t.body i = some data ∧
       data.insert_into_database fault none now con.view = Except.ok dbn ∧
       (fetch_current_prices t cfg now con fault).con.committed = dbn) := by
  rcases hf : (retry_phase t cfg).found with _ | i
  · left
    simp [fetch_current_prices, hf]
  · rcases hb : t.body i with _ | data
    · left
      simp [fetch_current_prices, hf, hb]
    · rcases hi : data.insert_into_database fault none now con.view with dbp | dbn
      · left
        simp [fetch_current_prices, process_response, hf, hb, hi]
      · right
        constructor
        · simp [fetch_current_prices, process_response, hf, hb, hi]
        · exact ⟨i, data, dbn, rfl, hb, hi, by
            simp [fetch_current_prices, process_response, hf, hb, hi]⟩

/-- C6: inserting the same station identifier twice (second row possibly
differing in the other fields) leaves exactly one row for that identifier,
the one of the first insert, and the second insert raises no error. -/
theorem station_insert_first_write_wins (rows : List SqlStation)
    (s1 s2 : SqlStation) (hid : s2.id = s1.id)
    (h0 : rows.filter (fun r => r.id == s1.id) = []) :
    ∃ rows2, insert_station_twice rows s1 s2 = Except.ok rows2 ∧
      rows2.filter (fun r => r.id == s1.id) = [s1] := by
  have hany : rows.any (fun r => r.id == s1.id) = false := by
    rw [List.any_eq_false]
    rw [List.filter_eq_nil_iff] at h0
    exact h0
  have e1 : station_table_after rows s1 = rows ++ [s1] := by
    unfold station_table_after
    rw [hany]
    rfl
  have hany2 : (rows ++ [s1]).any (fun r => r.id == s2.id) = true := by
    rw [List.any_append]
    simp [hid]
  have e2 : station_table_after (rows ++ [s1]) s2 = rows ++ [s1] := by
    unfold station_table_after
    rw [hany2]
    rfl
  refine ⟨rows ++ [s1], ?_, ?_⟩
  · unfold insert_station_twice
    rw [insert_station_row_true, e1]
    show insert_station_row (rows ++ [s1]) s2 true = _
    rw [insert_station_row_true, e2]
  · rw [List.filter_append, h0]
    simp

/-- C6 witness: inserting identifier `A1` and then the same identifier with
a different name leaves exactly the first row. -/
theorem station_insert_first_write_wins_witness :
    sqlA2.id = sqlA.id ∧
    ([] : List SqlStation).filter (fun r => r.id == sqlA.id) = [] ∧
    ∃ rows2, insert_station_twice [] sqlA sqlA2 = Except.ok rows2 ∧
      rows2.filter (fun r => r.id == sqlA.id) = [sqlA] :=
  ⟨rfl, rfl, station_insert_first_write_wins [] sqlA sqlA2 rfl rfl⟩

/-- C7 counterexample: a response with `ok = false` and a null station list
does not stay non-fatal — `insert_into_database` asserts the list is
present, so the cycle raises instead of processing. -/
theorem ok_false_null_stations_raises :
    (fetch_current_prices t_null_stations cfg3 1000 con0 noFault).term =
      CycleTermination.raised := rfl

/-- C7 amended: when the response's success flag is false its message is
logged (via `error_message`), and processing proceeds exactly as it would
with the flag true — the station list is persisted when present; when the
station list is null the assertion fails and the cycle raises. -/
theorem ok_false_logs_and_processes (data : TankerkoenigListResponse)
    (fault : Nat → Bool) (now : Int) (con : Connection)
    (hok : data.ok = false) :
    error_message_line (py_str_of_opt data.message) ∈
      (process_response data fault now con).1 ∧
    (process_response data fault now con).2 =
      (process_response { data with ok := true } fault now con).2 ∧
    (data.stations = none →
      (process_response data fault now con).2.2 = CycleTermination.raised) := by
  have hsame : ({ data with ok := true } :
      TankerkoenigListResponse).insert_into_database fault none now con.view =
      data.insert_into_database fault none now con.view := rfl
  refine ⟨?_, ?_, ?_⟩
  · unfold process_response
    rw [hok]
    cases data.insert_into_database fault none now con.view <;> simp
  · unfold process_response
    rw [hsame]
    cases data.insert_into_database fault none now con.view <;> rfl
  · intro hn
    unfold process_response
    rw [show data.insert_into_database fault none now con.view =
      Except.error con.view from by
        unfold TankerkoenigListResponse.insert_into_database
        rw [hn]]

/-- C7 witness: the concrete `ok = false` response. -/
theorem ok_false_logs_and_processes_witness :
    resp_null_stations.ok = false ∧
    (error_message_line (py_str_of_opt resp_null_stations.message) ∈
       (process_response resp_null_stations noFault 1000 con0).1 ∧
     (process_response resp_null_stations noFault 1000 con0).2 =
       (process_response { resp_null_stations with ok := true } noFault 1000
         con0).2 ∧
     (resp_null_stations.stations = none →
       (process_response resp_null_stations noFault 1000 con0).2.2 =
         CycleTermination.raised)) :=
  ⟨rfl, ok_false_logs_and_processes resp_null_stations noFault 1000 con0 rfl⟩

/-- C8 counterexample: a cycle whose HTTP attempt succeeds but whose body
fails to deserialize terminates the whole process (the loop has no
exception handler), instead of continuing to the next scheduled cycle. -/
theorem deserialization_failure_terminates_process :
    (scheduler_iteration t_badbody cfg3 1000 con0 noFault).1 =
      ProcessOutcome.terminated := rfl

/-- C8 amended: the process survives a cycle exactly when no exception is
raised in it: retry exhaustion and full success continue the loop, while a
deserialization failure, the null-station-list assertion, or a raising
insert terminates the process. -/
theorem cycle_exception_iff_terminates (t : Transport) (cfg : SqlMtsKConfig)
    (now : Int) (con : Connection) (fault : Nat → Bool) :
    (scheduler_iteration t cfg now con fault).1 = ProcessOutcome.terminated ↔
    ∃ i, (retry_phase t cfg).found = some i ∧
      (t.body i = none ∨ ∃ data dbp, t.body i = some data ∧
        data.insert_into_database fault none now con.view =
          Except.error dbp) := by
  rcases hf : (retry_phase t cfg).found with _ | i
  · simp [scheduler_iteration, fetch_current_prices, hf]
  · rcases hb : t.body i with _ | data
    · simp [scheduler_iteration, fetch_current_prices, hf, hb]
    · rcases hi : data.insert_into_database fault none now con.view with dbp | dbn
      · simp [scheduler_iteration, fetch_current_prices, process_response,
          hf, hb, hi]
      · simp [scheduler_iteration, fetch_current_prices, process_response,
          hf, hb, hi]

end SqlMtsK
